import Mathlib

set_option maxRecDepth 40000

/-
Verification of the three-detector stock screener
(`combined_screener_cloud.py` / `combined_screener.py`).

Shallow embedding conventions:
* pandas DataFrames of daily bars become `List Bar`; `df.iloc[i]` becomes
  `barAt df i` (total, default bar out of range) and `df.iloc[a:b]` becomes
  `sliceD df a b`.
* Python floats become `ℚ`; decimal literals of the source are taken exactly.
* Python `round` (banker's rounding, half to even) becomes `pyRound`; the
  two-argument `round(x, n)` becomes `pyRoundTo n x`.
* A detector's `(False, None) / (True, detail)` pair becomes `Option`.
-/

/-- Python `round`: round half to even, as `round` behaves on exact values
(`Rat.floor` is used so that the definition evaluates by reduction). -/
def pyRound (q : ℚ) : ℤ :=
  let f := q.floor
  let r := q - (f : ℚ)
  if r < 1/2 then f
  else if 1/2 < r then f + 1
  else if f % 2 = 0 then f else f + 1

/-- Python `round(x, n)`: round to `n` decimal places, half to even. -/
def pyRoundTo (n : ℕ) (q : ℚ) : ℚ :=
  (pyRound (q * (10 : ℚ) ^ n) : ℚ) / (10 : ℚ) ^ n

/-- One daily OHLCV bar (`open` is `open_` because `open` is a Lean keyword). -/
structure Bar where
  date : ℕ
  open_ : ℚ
  high : ℚ
  low : ℚ
  close : ℚ
  volume : ℚ
deriving DecidableEq, Inhabited

/-- `df.iloc[i]` for a non-negative position (total). -/
def barAt (df : List Bar) (i : ℕ) : Bar := df.getD i default

/-- `df.iloc[a:b]` for non-negative positions. -/
def sliceD (df : List Bar) (a b : ℕ) : List Bar := (df.drop a).take (b - a)

/-- pandas `.max()` over a column (0 on an empty column; guarded in all uses). -/
def maxD : List ℚ → ℚ
  | [] => 0
  | x :: xs => xs.foldl max x

/-- pandas `.min()` over a column (0 on an empty column; guarded in all uses). -/
def minD : List ℚ → ℚ
  | [] => 0
  | x :: xs => xs.foldl min x

/-- pandas `.mean()` over a column (0 on an empty column; guarded in all uses). -/
def meanD (l : List ℚ) : ℚ := l.sum / l.length

/-- `CombinedScreenerCloud._linear_map`. -/
def linearMap (value low high score_low score_high : ℚ) : ℚ :=
  if high = low then (if high ≤ value then score_high else score_low)
  else
    let ratio := (value - low) / (high - low)
    let ratio2 := max 0 (min 1 ratio)
    score_low + ratio2 * (score_high - score_low)

/-! ### Strategy configurations (`__init__`) -/

structure ReversalConfig where
  small_bear_min : ℚ
  small_bear_max : ℚ
  big_bear_min : ℚ
  gap_down_min : ℚ
  bull_close_min : ℚ
  prior_decline_days : ℕ
  prior_decline_min : ℚ
  max_upper_shadow : ℚ

def reversalConfig : ReversalConfig :=
  { small_bear_min := 0.3, small_bear_max := 2.0, big_bear_min := 3.0,
    gap_down_min := 0, bull_close_min := 1.0, prior_decline_days := 22,
    prior_decline_min := 3, max_upper_shadow := 30 }

structure VolumeBreakoutConfig where
  prior_lookback_days : ℕ
  prior_decline_min_pct : ℚ
  consol_min_days : ℕ
  consol_max_range_pct : ℚ
  limit_up_main_board : ℚ
  limit_up_chinext : ℚ
  limit_up_body_ratio_min : ℚ
  post_consol_min_days : ℕ
  post_consol_max_lookback : ℕ

def vbConfig : VolumeBreakoutConfig :=
  { prior_lookback_days := 60, prior_decline_min_pct := 15,
    consol_min_days := 22, consol_max_range_pct := 15,
    limit_up_main_board := 9.5, limit_up_chinext := 19.5,
    limit_up_body_ratio_min := 0.6, post_consol_min_days := 5,
    post_consol_max_lookback := 20 }

structure ShrinkBreakoutConfig where
  min_decline_pct : ℚ
  consolidation1_min_days : ℕ
  consolidation1_max_amplitude : ℚ
  limit_up_main_pct : ℚ
  limit_up_chinext_pct : ℚ
  consolidation2_min_days : ℕ
  consolidation2_max_amplitude : ℚ
  consolidation2_support_tolerance : ℚ
  vol_ma_short : ℕ
  vol_ma_long : ℕ

def sbConfig : ShrinkBreakoutConfig :=
  { min_decline_pct := 15, consolidation1_min_days := 22,
    consolidation1_max_amplitude := 15, limit_up_main_pct := 9.8,
    limit_up_chinext_pct := 19.8, consolidation2_min_days := 5,
    consolidation2_max_amplitude := 10, consolidation2_support_tolerance := 0,
    vol_ma_short := 5, vol_ma_long := 10 }

/-! ### Strategy 1: three-day reversal (`check_reversal_pattern`) -/

/-- day1's magnitude window `small_bear_min <= |Δ%| <= small_bear_max`. -/
abbrev day1SmallCond (c : ℚ) : Prop :=
  reversalConfig.small_bear_min ≤ |c| ∧ |c| ≤ reversalConfig.small_bear_max

/-- day2's magnitude bound `|Δ%| >= big_bear_min`. -/
abbrev day2BigCond (c : ℚ) : Prop := reversalConfig.big_bear_min ≤ |c|

/-- day3's gap-down condition `gap_down <= -gap_down_min`. -/
abbrev day3GapCond (g : ℚ) : Prop := g ≤ -reversalConfig.gap_down_min

/-- day3's strength condition `Δ% >= bull_close_min`. -/
abbrev day3StrongCond (c : ℚ) : Prop := reversalConfig.bull_close_min ≤ c

/-- `upper_shadow_ratio` inside `check_reversal_pattern`. -/
def upperShadowRatio (b : Bar) : ℚ :=
  let total_range := b.high - b.low
  if total_range = 0 then 0
  else (b.high - max b.open_ b.close) / total_range * 100

/-- The scoring block of `check_reversal_pattern` (lines 270-288),
as a function of the quantities the source computes just before it. -/
def revScore (day2_change gap_down : ℚ) (day1_not_engulfed : Bool)
    (day2_gap_down day3_change bear_contrast max_upper_shadow : ℚ) : ℤ :=
  let s : ℚ := 40
  let s := s + min (|day2_change| - 3) 5 * 2
  let s := s + min |gap_down| 3 * 2
  let s := s + (if day1_not_engulfed then 8 else 0)
  let s := s + (if day2_gap_down < 0 then min |day2_gap_down| 2 * 5 else 0)
  let s := s + (if day3_change ≤ 3 then 8 else if day3_change ≤ 5 then 4 else 0)
  let s := s + min (bear_contrast - 1.5) 3 * 3.33
  let s := s + (if max_upper_shadow ≤ 10 then 8
                else if max_upper_shadow ≤ 20 then 5
                else if max_upper_shadow ≤ 30 then 2 else 0)
  pyRound (min 100 (max 0 s))

/-- `revScore` with the contrast ratio computed from day1's change, exactly as
`check_reversal_pattern` computes `bear_contrast` (0 when `|day1Δ| = 0`). -/
def revScoreOf (day1_change day2_change gap_down : ℚ) (day1_not_engulfed : Bool)
    (day2_gap_down day3_change max_upper_shadow : ℚ) : ℤ :=
  revScore day2_change gap_down day1_not_engulfed day2_gap_down day3_change
    (if 0 < |day1_change| then |day2_change| / |day1_change| else 0)
    max_upper_shadow

/-- The `detail` dict returned by `check_reversal_pattern` on a match. -/
structure RevDetail where
  day1_change : ℚ
  day2_change : ℚ
  day3_change : ℚ
  gap_down : ℚ
  day2_gap : ℚ
  contrast : ℚ
  shadow : ℚ
  engulfed : Bool
  prior_decline : ℚ
  day1_date : ℕ
  day2_date : ℕ
  day3_date : ℕ
  score : ℤ
deriving DecidableEq, Inhabited

/-- `check_reversal_pattern(df)`: three-day reversal detection. -/
def checkReversal (odf : Option (List Bar)) : Option RevDetail :=
  match odf with
  | none => none
  | some df =>
    let n := df.length
    if n < 3 + reversalConfig.prior_decline_days then none
    else if n < 3 + reversalConfig.prior_decline_days then none
    else
      let day1 := barAt df (n - 3)
      let day2 := barAt df (n - 2)
      let day3 := barAt df (n - 1)
      let prior_start_close := (barAt df (n - (3 + reversalConfig.prior_decline_days))).close
      let prior_end_close := (barAt df (n - 4)).close
      if prior_start_close = 0 then none
      else
        let prior_decline := (prior_end_close - prior_start_close) / prior_start_close * 100
        if 0 < reversalConfig.prior_decline_min ∧
            (0 ≤ prior_decline ∨ |prior_decline| < reversalConfig.prior_decline_min) then none
        else if day1.open_ = 0 ∨ day2.open_ = 0 ∨ day3.open_ = 0 then none
        else if day2.close = 0 then none
        else
          let day1_change := (day1.close - day1.open_) / day1.open_ * 100
          let day2_change := (day2.close - day2.open_) / day2.open_ * 100
          let gap_down := (day3.open_ - day2.close) / day2.close * 100
          let day3_change := (day3.close - day3.open_) / day3.open_ * 100
          let engulfed : Bool := decide (day1.high ≤ day2.high ∧ day2.low ≤ day1.low)
          let day1_not_engulfed : Bool := !engulfed
          let day2_gap_down := (day2.open_ - day1.close) / day1.close * 100
          let max_upper_shadow :=
            max (upperShadowRatio day1) (max (upperShadowRatio day2) (upperShadowRatio day3))
          let bear_contrast := if 0 < |day1_change| then |day2_change| / |day1_change| else 0
          if day1.close < day1.open_ ∧ day1SmallCond day1_change ∧
              day2.close < day2.open_ ∧ day2BigCond day2_change ∧
              day3GapCond gap_down ∧ day3.open_ < day3.close ∧ day3StrongCond day3_change ∧
              max_upper_shadow ≤ reversalConfig.max_upper_shadow then
            some {
              day1_change := pyRoundTo 2 day1_change
              day2_change := pyRoundTo 2 day2_change
              day3_change := pyRoundTo 2 day3_change
              gap_down := pyRoundTo 2 gap_down
              day2_gap := pyRoundTo 2 day2_gap_down
              contrast := pyRoundTo 1 bear_contrast
              shadow := pyRoundTo 1 max_upper_shadow
              engulfed := engulfed
              prior_decline := pyRoundTo 2 prior_decline
              day1_date := day1.date
              day2_date := day2.date
              day3_date := day3.date
              score := revScore day2_change gap_down day1_not_engulfed
                day2_gap_down day3_change bear_contrast max_upper_shadow }
          else none

/-! ### Strategy 2: volume breakout (`check_volume_breakout_pattern`) -/

/-- `_vb_is_limit_up`: limit-up bar test for the volume-breakout detector. -/
def vbIsLimitUp (row : Bar) (prev_close : ℚ) (code : String) : Bool :=
  if prev_close = 0 then false
  else
    let change_pct := (row.close - prev_close) / prev_close * 100
    let threshold := if code.startsWith "3" then vbConfig.limit_up_chinext
                     else vbConfig.limit_up_main_board
    if change_pct < threshold then false
    else
      let total_range := row.high - row.low
      if total_range = 0 then false
      else
        let body_ratio := |row.close - row.open_| / total_range
        if body_ratio < vbConfig.limit_up_body_ratio_min then false
        else if row.close ≤ row.open_ then false
        else true

/-- The `best` tuple `(consol_start, consol_end, mean_price, range_pct, length)`
accumulated by `_vb_find_consolidation`. -/
structure ConsolWindow where
  cstart : ℕ
  cend : ℕ
  mean_price : ℚ
  range_pct : ℚ
  days : ℕ
deriving DecidableEq, Inhabited

/-- What one iteration of `_vb_find_consolidation`'s loop observes for a
window length: a window satisfying the amplitude bound (`ok`), a zero-mean
window (the `continue` on `mean_price == 0`, `skip`), a violating window
(`bad`), or a window falling off the front of the data (`stop`). -/
inductive VbStep where
  | ok (w : ConsolWindow)
  | skip
  | bad
  | stop
deriving DecidableEq

/-- The body of `_vb_find_consolidation`'s loop for one window length. -/
def vbClassify (df : List Bar) (cend len : ℕ) : VbStep :=
  if cend + 1 < len then .stop
  else
    let cstart := cend + 1 - len
    let cls := (sliceD df cstart (cend + 1)).map (·.close)
    let mean_price := meanD cls
    if mean_price = 0 then .skip
    else
      let range_pct := (maxD cls - minD cls) / mean_price * 100
      if range_pct ≤ vbConfig.consol_max_range_pct then
        .ok ⟨cstart, cend, mean_price, range_pct, len⟩
      else .bad

/-- The window lengths `range(consol_min_days, min(consol_end + 1, 80))`. -/
def vbConsolLengths (cend : ℕ) : List ℕ :=
  List.range' vbConfig.consol_min_days (min (cend + 1) 80 - vbConfig.consol_min_days)

/-- `_vb_find_consolidation`'s loop: `best` accumulates the last satisfying
window; a violating window breaks the loop only when `best` is already set. -/
def vbConsolLoop (df : List Bar) (cend : ℕ) :
    List ℕ → Option ConsolWindow → Option ConsolWindow
  | [], best => best
  | len :: rest, best =>
    match vbClassify df cend len with
    | .stop => best
    | .skip => vbConsolLoop df cend rest best
    | .ok w => vbConsolLoop df cend rest (some w)
    | .bad => match best with
      | none => vbConsolLoop df cend rest none
      | some w => some w

/-- `_vb_find_consolidation(df, limit_up_idx)`. -/
def vbFindConsolidation (df : List Bar) (limit_up_idx : ℕ) : Option ConsolWindow :=
  let cend := limit_up_idx - 1
  if cend < vbConfig.consol_min_days then none
  else vbConsolLoop df cend (vbConsolLengths cend) none

/-- Second phase of the two-phase reformulation of `_vb_find_consolidation`:
after a first satisfying length, grow through satisfying (and zero-mean)
lengths and stop at the first violating one. -/
def vbConsolPhase2 (df : List Bar) (cend : ℕ) : List ℕ → ConsolWindow → ConsolWindow
  | [], w => w
  | len :: rest, w =>
    match vbClassify df cend len with
    | .ok w2 => vbConsolPhase2 df cend rest w2
    | .skip => vbConsolPhase2 df cend rest w
    | .bad => w
    | .stop => w

/-- First phase of the two-phase reformulation: scan for the first length that
satisfies the amplitude bound, ignoring earlier violating lengths. -/
def vbConsolPhase1 (df : List Bar) (cend : ℕ) : List ℕ → Option ConsolWindow
  | [] => none
  | len :: rest =>
    match vbClassify df cend len with
    | .ok w => some (vbConsolPhase2 df cend rest w)
    | .skip => vbConsolPhase1 df cend rest
    | .bad => vbConsolPhase1 df cend rest
    | .stop => none

/-- Two-phase reformulation of `_vb_find_consolidation` (the amended C4). -/
def vbFindConsolidationTwoPhase (df : List Bar) (limit_up_idx : ℕ) : Option ConsolWindow :=
  let cend := limit_up_idx - 1
  if cend < vbConfig.consol_min_days then none
  else vbConsolPhase1 df cend (vbConsolLengths cend)

/-- The pre-consolidation search as the spec's sentence literally describes
it: keep the longest satisfying length, and stop growth at the FIRST length
that violates the amplitude bound (whether or not a satisfying length has
been found yet). -/
def vbConsolClaimedLoop (df : List Bar) (cend : ℕ) :
    List ℕ → Option ConsolWindow → Option ConsolWindow
  | [], best => best
  | len :: rest, best =>
    match vbClassify df cend len with
    | .ok w => vbConsolClaimedLoop df cend rest (some w)
    | .skip => vbConsolClaimedLoop df cend rest best
    | .bad => best
    | .stop => best

/-- The whole consolidation search as the spec's sentence describes it. -/
def vbFindConsolidationClaimed (df : List Bar) (limit_up_idx : ℕ) : Option ConsolWindow :=
  let cend := limit_up_idx - 1
  if cend < vbConfig.consol_min_days then none
  else vbConsolClaimedLoop df cend (vbConsolLengths cend) none

/-- `_vb_check_prior_decline(df, consol_start, consol_mean)`. -/
def vbCheckPriorDecline (df : List Bar) (consol_start : ℕ) (consol_mean : ℚ) :
    Option (ℚ × ℚ) :=
  let search_start := consol_start - vbConfig.prior_lookback_days
  if consol_start ≤ search_start then none
  else
    let prior_slice := sliceD df search_start consol_start
    if prior_slice.length = 0 then none
    else
      let prior_high := maxD (prior_slice.map (·.close))
      if consol_mean = 0 then none
      else
        let decline_pct := (prior_high - consol_mean) / consol_mean * 100
        if decline_pct < vbConfig.prior_decline_min_pct then none
        else some (decline_pct, prior_high)

/-- `_vb_calculate_score(detail)`: the seven-part linear-interpolation score,
taking the (already rounded) detail fields it reads. -/
def vbCalculateScore (prior_decline_pct : ℚ) (consol_days : ℕ)
    (limit_up_body_ratio limit_up_vol_ratio post_range_pct : ℚ)
    (post_consol_days : ℕ) (break_vol_ratio break_body_ratio : ℚ) : ℤ :=
  let s := linearMap prior_decline_pct 15 40 0 15
  let s := s + linearMap (consol_days : ℚ) 22 60 0 10
  let s := s + linearMap limit_up_body_ratio 0.6 1.0 0 10
  let s := s + linearMap limit_up_vol_ratio 1 4 0 10
  let s := s + (if post_range_pct ≤ 5 then 15
                else if post_range_pct ≤ 10 then linearMap post_range_pct 10 5 0 15
                else 0)
  let s := s + linearMap (post_consol_days : ℚ) 5 15 0 10
  let s := s + linearMap break_vol_ratio 1 3 0 15
  let s := s + linearMap break_body_ratio 0.3 0.9 0 15
  pyRound (min 100 (max 0 s))

/-- The `detail` dict of `check_volume_breakout_pattern` on a match. -/
structure VBDetail where
  prior_decline_pct : ℚ
  consol_days : ℕ
  consol_range_pct : ℚ
  consol_mean_price : ℚ
  limit_up_date : ℕ
  limit_up_change : ℚ
  limit_up_body_ratio : ℚ
  limit_up_vol_ratio : ℚ
  post_consol_days : ℕ
  post_range_pct : ℚ
  break_date : ℕ
  break_change : ℚ
  break_vol_ratio : ℚ
  break_body_ratio : ℚ
  break_close : ℚ
  score : ℤ
deriving DecidableEq, Inhabited

/-- The body of `check_volume_breakout_pattern`'s scan loop for one
`scan_idx`: the candidate's full validation chain and, on success, its
detail dict (all the `continue`s become `none`). -/
def vbCandidate (df : List Bar) (code : String) (scan_idx : ℕ) : Option VBDetail :=
  let n := df.length
  let candidate_idx := n - 1 - scan_idx
  let candidate := barAt df candidate_idx
  let prev_of_candidate := barAt df (candidate_idx - 1)
  if vbIsLimitUp candidate prev_of_candidate.close code then
    let post_start := candidate_idx + 1
    let post_end := n - 2
    let post_days := post_end + 1 - post_start
    if post_days < vbConfig.post_consol_min_days then none
    else
      let post_slice := sliceD df post_start (post_end + 1)
      let last := barAt df (n - 1)
      let limit_up_open := candidate.open_
      let limit_up_close := candidate.close
      if ∃ b ∈ post_slice, b.close < limit_up_open then none
      else if last.close ≤ limit_up_close then none
      else
        match vbFindConsolidation df candidate_idx with
        | none => none
        | some cw =>
          match vbCheckPriorDecline df cw.cstart cw.mean_price with
          | none => none
          | some pd =>
            let prev := barAt df (n - 2)
            let limit_up_change :=
              (candidate.close - prev_of_candidate.close) / prev_of_candidate.close * 100
            let total_range := candidate.high - candidate.low
            let limit_up_body_ratio :=
              if 0 < total_range then |candidate.close - candidate.open_| / total_range else 0
            let post_closes := post_slice.map (·.close)
            let post_mean := meanD post_closes
            let post_range_pct :=
              if 0 < post_mean then (maxD post_closes - minD post_closes) / post_mean * 100
              else 999
            let prior_avg_vol :=
              meanD ((sliceD df (candidate_idx - 5) candidate_idx).map (·.volume))
            let limit_up_vol_ratio :=
              if 0 < prior_avg_vol then candidate.volume / prior_avg_vol else 1
            let break_vol_ratio := if 0 < prev.volume then last.volume / prev.volume else 1
            let break_total_range := last.high - last.low
            let break_body_ratio :=
              if 0 < break_total_range then (last.close - last.open_) / break_total_range else 0
            let r_decline := pyRoundTo 2 pd.1
            let r_lu_body := pyRoundTo 2 limit_up_body_ratio
            let r_lu_vol := pyRoundTo 2 limit_up_vol_ratio
            let r_post_range := pyRoundTo 2 post_range_pct
            let r_break_vol := pyRoundTo 2 break_vol_ratio
            let r_break_body := pyRoundTo 2 break_body_ratio
            some {
              prior_decline_pct := r_decline
              consol_days := cw.days
              consol_range_pct := pyRoundTo 2 cw.range_pct
              consol_mean_price := pyRoundTo 2 cw.mean_price
              limit_up_date := candidate.date
              limit_up_change := pyRoundTo 2 limit_up_change
              limit_up_body_ratio := r_lu_body
              limit_up_vol_ratio := r_lu_vol
              post_consol_days := post_days
              post_range_pct := r_post_range
              break_date := last.date
              break_change := pyRoundTo 2 ((last.close - prev.close) / prev.close * 100)
              break_vol_ratio := r_break_vol
              break_body_ratio := r_break_body
              break_close := pyRoundTo 2 last.close
              score := vbCalculateScore r_decline cw.days r_lu_body r_lu_vol
                r_post_range post_days r_break_vol r_break_body }
  else none

/-- The `best_detail` update of the scan loop: replace only on a strictly
higher score (`detail['score'] > best_detail['score']`). -/
def vbStep (best : Option VBDetail) (d : VBDetail) : Option VBDetail :=
  match best with
  | none => some d
  | some b => if b.score < d.score then some d else some b

/-- The scan loop of `check_volume_breakout_pattern` over `scan_idx` values,
with its `break` on `candidate_idx < 1`. -/
def vbScan (df : List Bar) (code : String) :
    List ℕ → Option VBDetail → Option VBDetail
  | [], best => best
  | i :: rest, best =>
    if df.length - 1 - i < 1 then best
    else
      match vbCandidate df code i with
      | none => vbScan df code rest best
      | some d => vbScan df code rest (vbStep best d)

/-- `range(2, max_lookback + 1)`. -/
def vbScanIdxs (max_lookback : ℕ) : List ℕ := List.range' 2 (max_lookback - 1)

/-- `check_volume_breakout_pattern(df, code)`. -/
def checkVB (odf : Option (List Bar)) (code : String) : Option VBDetail :=
  match odf with
  | none => none
  | some df =>
    let n := df.length
    if n < 50 then none
    else
      let last := barAt df (n - 1)
      let prev := barAt df (n - 2)
      if last.close ≤ last.open_ then none
      else if prev.volume = 0 ∨ last.volume ≤ prev.volume then none
      else
        let max_lookback := min vbConfig.post_consol_max_lookback (n - 30)
        vbScan df code (vbScanIdxs max_lookback) none

/-- The valid candidate details, in the scan order (nearest to farthest),
that `check_volume_breakout_pattern`'s loop actually reaches. -/
def vbValidCandidates (df : List Bar) (code : String) : List VBDetail :=
  let n := df.length
  let max_lookback := min vbConfig.post_consol_max_lookback (n - 30)
  ((vbScanIdxs max_lookback).takeWhile (fun i => decide (1 ≤ n - 1 - i))).filterMap
    (vbCandidate df code)

/-! ### Strategy 3: shrink breakout (`check_shrink_breakout_pattern`) -/

/-- `_sb_is_limit_up(close, prev_close, code)`. -/
def sbIsLimitUp (close prev_close : ℚ) (code : String) : Bool :=
  if prev_close = 0 then false
  else
    let change_pct := (close - prev_close) / prev_close * 100
    if code.startsWith "300" then decide (sbConfig.limit_up_chinext_pct ≤ change_pct)
    else decide (sbConfig.limit_up_main_pct ≤ change_pct)

/-- `_sb_find_limit_up_day`: scan `range(n - 7, 0, -1)` for the nearest
limit-up day. -/
def sbFindLimitUpDay (df : List Bar) (code : String) : Option ℕ :=
  ((List.range' 1 (df.length - 7)).reverse).find?
    (fun i => sbIsLimitUp (barAt df i).close (barAt df (i - 1)).close code)

/-- `df['volume'].iloc[n - k : n].mean()`: the `k`-bar average volume. -/
def volMA (df : List Bar) (k : ℕ) : ℚ :=
  meanD ((sliceD df (df.length - k) df.length).map (·.volume))

/-- The signal sub-detail of `_sb_check_signal`. -/
structure SbSignal where
  signal_change : ℚ
  vol_ma_short : ℚ
  vol_ma_long : ℚ
  vol_ratio : ℚ
  signal_date : ℕ
deriving DecidableEq, Inhabited

/-- `_sb_check_signal(df)`: today bullish and 5-bar average volume strictly
below the 10-bar average volume. -/
def sbCheckSignal (df : List Bar) : Option SbSignal :=
  let n := df.length
  let row := barAt df (n - 1)
  if row.close ≤ row.open_ then none
  else if n < sbConfig.vol_ma_long then none
  else
    let vol_ma_short := volMA df sbConfig.vol_ma_short
    let vol_ma_long := volMA df sbConfig.vol_ma_long
    if vol_ma_long = 0 then none
    else if vol_ma_long ≤ vol_ma_short then none
    else some {
      signal_change := pyRoundTo 2 ((row.close - row.open_) / row.open_ * 100)
      vol_ma_short := pyRoundTo 0 vol_ma_short
      vol_ma_long := pyRoundTo 0 vol_ma_long
      vol_ratio := pyRoundTo 4 (vol_ma_short / vol_ma_long)
      signal_date := row.date }

/-- The post-consolidation sub-detail of `_sb_check_post_consolidation`. -/
structure SbPost where
  post_days : ℕ
  post_amplitude : ℚ
  post_max_close : ℚ
  post_min_close : ℚ
deriving DecidableEq, Inhabited

/-- `_sb_check_post_consolidation(df, limit_up_idx)`. -/
def sbCheckPostConsolidation (df : List Bar) (limit_up_idx : ℕ) : Option SbPost :=
  let n := df.length
  let signal_idx := n - 1
  let start := limit_up_idx + 1
  if signal_idx - start < sbConfig.consolidation2_min_days then none
  else
    let post_df := sliceD df start signal_idx
    let limit_up_close := (barAt df limit_up_idx).close
    let tolerance := limit_up_close * sbConfig.consolidation2_support_tolerance / 100
    if ∃ b ∈ post_df, b.close < limit_up_close - tolerance then none
    else
      let cls := post_df.map (·.close)
      let max_close := maxD cls
      let min_close := minD cls
      let avg_close := meanD cls
      if avg_close = 0 then none
      else
        let amplitude := (max_close - min_close) / avg_close * 100
        if sbConfig.consolidation2_max_amplitude < amplitude then none
        else
          let signal_close := (barAt df signal_idx).close
          if signal_close ≤ max_close then none
          else some {
            post_days := signal_idx - start
            post_amplitude := pyRoundTo 2 amplitude
            post_max_close := max_close
            post_min_close := min_close }

/-- The pre-consolidation sub-detail of `_sb_check_pre_consolidation`. -/
structure SbPre where
  consolidation1_start : ℕ
  consolidation1_days : ℕ
  consolidation1_amplitude : ℚ
deriving DecidableEq, Inhabited

/-- The backward-growing loop of `_sb_check_pre_consolidation`: the window end
is fixed at `limit_up_idx` (exclusive) and `start` walks down; a zero-mean or
violating segment breaks the loop. -/
def sbPreLoop (df : List Bar) (lu : ℕ) : List ℕ → Option ℕ → Option ℕ
  | [], best => best
  | s :: rest, best =>
    let seg := (sliceD df s lu).map (·.close)
    let seg_avg := meanD seg
    if seg_avg = 0 then best
    else
      let amp := (maxD seg - minD seg) / seg_avg * 100
      if amp ≤ sbConfig.consolidation1_max_amplitude then sbPreLoop df lu rest (some s)
      else best

/-- `_sb_check_pre_consolidation(df, limit_up_idx, code)`. -/
def sbCheckPreConsolidation (df : List Bar) (limit_up_idx : ℕ) (code : String) :
    Option SbPre :=
  if limit_up_idx < sbConfig.consolidation1_min_days then none
  else
    match sbPreLoop df limit_up_idx
        ((List.range (limit_up_idx - sbConfig.consolidation1_min_days + 1)).reverse) none with
    | none => none
    | some best_start =>
      let consolidation_days := limit_up_idx - best_start
      if consolidation_days < sbConfig.consolidation1_min_days then none
      else if (List.range' (best_start + 1) (limit_up_idx - 1 - best_start)).any
          (fun i => sbIsLimitUp (barAt df i).close (barAt df (i - 1)).close code) then none
      else
        let cls := (sliceD df best_start limit_up_idx).map (·.close)
        some {
          consolidation1_start := best_start
          consolidation1_days := consolidation_days
          consolidation1_amplitude := pyRoundTo 2 ((maxD cls - minD cls) / meanD cls * 100) }

/-- The decline sub-detail of `_sb_check_prior_decline`. -/
structure SbDecline where
  decline_pct : ℚ
deriving DecidableEq, Inhabited

/-- `_sb_check_prior_decline(df, consolidation_start)`. -/
def sbCheckPriorDecline (df : List Bar) (consolidation_start : ℕ) : Option SbDecline :=
  let lookback := min consolidation_start 60
  if lookback < 5 then none
  else
    let search_start := consolidation_start - lookback
    let search_df := sliceD df search_start consolidation_start
    let max_close := maxD (search_df.map (·.close))
    let end_close := (barAt df consolidation_start).close
    if max_close = 0 then none
    else
      let decline_pct := (max_close - end_close) / max_close * 100
      if decline_pct < sbConfig.min_decline_pct then none
      else some { decline_pct := pyRoundTo 2 decline_pct }

/-- The limit-up bar classification of `check_shrink_breakout_pattern`
(the source's strings are the Chinese names for one-word board, T-shape
board and ordinary limit-up). -/
inductive LimitUpType where
  | one_word
  | t_shape
  | ordinary
deriving DecidableEq, Inhabited

/-- `_sb_calculate_score(details)`, taking the detail fields it reads
(`consolidation1_days`, the rounded `decline_pct`, `limit_up_type`, the
rounded `post_amplitude`, `vol_ratio` and `signal_change`).
`int(x)` of a positive float becomes the floor. -/
def sbCalculateScore (consolidation1_days : ℕ) (decline_pct : ℚ)
    (limit_up_type : LimitUpType) (post_amplitude vol_ratio signal_change : ℚ) : ℤ :=
  let s : ℤ := 40
  let extra_days : ℤ := (consolidation1_days : ℤ) - 22
  let s := s + (if 0 < extra_days then min (extra_days / 10 * 3) 10 else 0)
  let extra_decline := decline_pct - 15
  let s := s + (if 0 < extra_decline then min (⌊extra_decline / 5⌋ * 3) 10 else 0)
  let s := s + (match limit_up_type with
    | .one_word => 8
    | .t_shape => 8
    | .ordinary => 5)
  let s := s + (if post_amplitude < 5 then 8
                else if post_amplitude < 8 then 5
                else if post_amplitude < 10 then 3 else 0)
  let s := s + (if vol_ratio < 0.5 then 10
                else if vol_ratio < 0.6 then 8
                else if vol_ratio < 0.7 then 6
                else if vol_ratio < 0.8 then 4
                else if vol_ratio < 0.9 then 2 else 0)
  let s := s + (if 2 ≤ signal_change ∧ signal_change ≤ 5 then 8
                else if 5 < signal_change ∧ signal_change ≤ 8 then 5 else 0)
  let s := s + 6
  min 100 (max 0 s)

/-- The merged `detail` dict of `check_shrink_breakout_pattern` on a match. -/
structure SBDetail where
  signal_change : ℚ
  vol_ma_short : ℚ
  vol_ma_long : ℚ
  vol_ratio : ℚ
  signal_date : ℕ
  post_days : ℕ
  post_amplitude : ℚ
  post_max_close : ℚ
  post_min_close : ℚ
  consolidation1_start : ℕ
  consolidation1_days : ℕ
  consolidation1_amplitude : ℚ
  decline_pct : ℚ
  limit_up_date : ℕ
  limit_up_change : ℚ
  limit_up_type : LimitUpType
  score : ℤ
deriving DecidableEq, Inhabited

/-- `check_shrink_breakout_pattern(df, code)`. -/
def checkSB (odf : Option (List Bar)) (code : String) : Option SBDetail :=
  match odf with
  | none => none
  | some df =>
    if df.length < 60 then none
    else
      match sbCheckSignal df with
      | none => none
      | some sig =>
        match sbFindLimitUpDay df code with
        | none => none
        | some limit_up_idx =>
          match sbCheckPostConsolidation df limit_up_idx with
          | none => none
          | some post =>
            match sbCheckPreConsolidation df limit_up_idx code with
            | none => none
            | some pre =>
              match sbCheckPriorDecline df pre.consolidation1_start with
              | none => none
              | some dec =>
                let limit_up_row := barAt df limit_up_idx
                let prev_close := (barAt df (limit_up_idx - 1)).close
                let limit_up_change := (limit_up_row.close - prev_close) / prev_close * 100
                let limit_up_type : LimitUpType :=
                  if limit_up_row.open_ = limit_up_row.close ∧
                      limit_up_row.close = limit_up_row.high then .one_word
                  else if limit_up_row.open_ = limit_up_row.low ∧
                      limit_up_row.close = limit_up_row.high then .t_shape
                  else .ordinary
                some {
                  signal_change := sig.signal_change
                  vol_ma_short := sig.vol_ma_short
                  vol_ma_long := sig.vol_ma_long
                  vol_ratio := sig.vol_ratio
                  signal_date := sig.signal_date
                  post_days := post.post_days
                  post_amplitude := post.post_amplitude
                  post_max_close := post.post_max_close
                  post_min_close := post.post_min_close
                  consolidation1_start := pre.consolidation1_start
                  consolidation1_days := pre.consolidation1_days
                  consolidation1_amplitude := pre.consolidation1_amplitude
                  decline_pct := dec.decline_pct
                  limit_up_date := limit_up_row.date
                  limit_up_change := pyRoundTo 2 limit_up_change
                  limit_up_type := limit_up_type
                  score := sbCalculateScore pre.consolidation1_days dec.decline_pct
                    limit_up_type post.post_amplitude sig.vol_ratio sig.signal_change }

/-! ### Aggregation: multi-strategy resonance
(`_print_report` lines 333-385 and `_format_markdown` lines 1047-1071;
both build the same hit map and sort it the same way). -/

/-- One matched result as the aggregation reads it: its symbol code, display
name and score (`r['code']`, `r['name']`, `r.get('score', 0)`). -/
structure HitRec where
  code : String
  name : String
  score : ℤ
deriving DecidableEq, Inhabited

/-- The three detector names used as hit-map keys (the source's Chinese
strategy-name strings). -/
inductive Strategy where
  | reversal
  | volume_breakout
  | shrink_breakout
deriving DecidableEq, Inhabited

/-- One hit-map value: `{'name': …, 'strategies': […], 'scores': {…}}`. -/
structure HitInfo where
  name : String
  strategies : List Strategy
  scores : List (Strategy × ℤ)
deriving DecidableEq, Inhabited

/-- Recording one result in the hit map (`hit_map.setdefault` + appends);
the map is an association list in insertion order, as a Python dict is. -/
def insertHit (strat : Strategy) (r : HitRec) :
    List (String × HitInfo) → List (String × HitInfo)
  | [] => [(r.code, ⟨r.name, [strat], [(strat, r.score)]⟩)]
  | (c, i) :: rest =>
    if c = r.code then
      (c, ⟨i.name, i.strategies ++ [strat], i.scores ++ [(strat, r.score)]⟩) :: rest
    else (c, i) :: insertHit strat r rest

/-- Recording one detector's result list in the hit map, in list order. -/
def addHits (strat : Strategy) (rs : List HitRec) (m : List (String × HitInfo)) :
    List (String × HitInfo) :=
  rs.foldl (fun m r => insertHit strat r m) m

/-- The full hit map: reversal results first, then volume-breakout, then
shrink-breakout, exactly as the source's three `for` loops run. -/
def hitMap (rev vol shr : List HitRec) : List (String × HitInfo) :=
  addHits .shrink_breakout shr (addHits .volume_breakout vol (addHits .reversal rev []))

/-- Association-list lookup (Python dict access by key). -/
def lookupInfo (c : String) : List (String × HitInfo) → Option HitInfo
  | [] => none
  | (k, i) :: rest => if k = c then some i else lookupInfo c rest

/-- How many strategy names the hit map holds for a code (0 if absent). -/
def stratCount (m : List (String × HitInfo)) (c : String) : ℕ :=
  match lookupInfo c m with
  | none => 0
  | some i => i.strategies.length

/-- Whether a result list hits a code, as 0 or 1. -/
def hitInd (rs : List HitRec) (c : String) : ℕ :=
  if c ∈ rs.map (·.code) then 1 else 0

/-- `multi_hit`: the hit-map entries with at least two strategies. -/
def multiHit (rev vol shr : List HitRec) : List (String × HitInfo) :=
  (hitMap rev vol shr).filter (fun e => decide (2 ≤ e.2.strategies.length))

/-- The sort key relation of `sorted(multi_hit.items(),
key=lambda x: len(x[1]['strategies']), reverse=True)`:
`a` may come before `b` iff `a` has at least as many strategies. -/
def hitLenGe (a b : String × HitInfo) : Prop :=
  b.2.strategies.length ≤ a.2.strategies.length

instance : DecidableRel hitLenGe := fun a b =>
  inferInstanceAs (Decidable (b.2.strategies.length ≤ a.2.strategies.length))

instance : IsTotal (String × HitInfo) hitLenGe :=
  ⟨fun a b => Nat.le_total b.2.strategies.length a.2.strategies.length⟩

instance : IsTrans (String × HitInfo) hitLenGe :=
  ⟨fun _ _ _ hab hbc => le_trans hbc hab⟩

/-- The resonance table: multi-hit entries sorted by hit count descending
with a stable sort (Python's `sorted` is stable, so equal hit counts keep
hit-map insertion order). Insertion sort with a non-strict relation is
exactly that stable sort. -/
def computeResonance (rev vol shr : List HitRec) : List (String × HitInfo) :=
  List.insertionSort hitLenGe (multiHit rev vol shr)

/-- The highest individual score recorded for a hit-map entry
(spec-side notion used by the claimed ordering). -/
def maxScoreInfo (i : HitInfo) : ℤ :=
  (i.scores.map (·.2)).foldl max 0

/-- The ordering the spec claims: hit count descending, then highest
individual score descending (spec-side definition). -/
def hitKeyGe (a b : String × HitInfo) : Prop :=
  b.2.strategies.length < a.2.strategies.length ∨
    (a.2.strategies.length = b.2.strategies.length ∧ maxScoreInfo b.2 ≤ maxScoreInfo a.2)

instance : DecidableRel hitKeyGe := fun a b =>
  inferInstanceAs (Decidable (b.2.strategies.length < a.2.strategies.length ∨
    (a.2.strategies.length = b.2.strategies.length ∧ maxScoreInfo b.2 ≤ maxScoreInfo a.2)))

/-- The resonance table as the spec's sentence describes it
(spec-side definition, to be compared with `computeResonance`). -/
def resonanceClaimed (rev vol shr : List HitRec) : List (String × HitInfo) :=
  List.insertionSort hitKeyGe (multiHit rev vol shr)

/-! ### Concrete bar series used as witnesses and counterexamples -/

/-- A 25-bar series matching the three-day reversal pattern:
a decline from close 100 (bar 0) to 95 (bar 21), then
day1 `-1%`, day2 `≈ -4.04%`, day3 gapping down to 94 and closing at 96. -/
def revFix : List Bar := (List.range 25).map fun i =>
  if i = 22 then ⟨i, 100, 100, 99, 99, 1000⟩
  else if i = 23 then ⟨i, 99, 99, 95, 95, 1000⟩
  else if i = 24 then ⟨i, 94, 96, 94, 96, 1000⟩
  else if i = 0 then ⟨i, 100, 100, 100, 100, 1000⟩
  else if i = 21 then ⟨i, 95, 95, 95, 95, 1000⟩
  else ⟨i, 98, 98, 98, 98, 1000⟩

/-- A 60-bar series matching the volume-breakout pattern: decline from 130
to a flat consolidation at 100, a 10% limit-up bar at index 52, a six-bar
pullback at 105, and a breakout bar at index 59 on doubled volume. -/
def vbFix : List Bar := (List.range 60).map fun i =>
  if i = 52 then ⟨i, 101, 111, 101, 110, 1000⟩
  else if i = 59 then ⟨i, 108, 113, 107, 112, 2000⟩
  else
    let c : ℚ := if i ≤ 28 then 130 else if i ≤ 51 then 100 else 105
    ⟨i, c, c, c, c, 1000⟩

/-- `vbFix` with the bar before the breakout day given volume 0 (the
most recent bar still has strictly greater volume). -/
def vbFixZ : List Bar := (List.range 60).map fun i =>
  if i = 52 then ⟨i, 101, 111, 101, 110, 1000⟩
  else if i = 58 then ⟨i, 105, 105, 105, 105, 0⟩
  else if i = 59 then ⟨i, 108, 113, 107, 112, 2000⟩
  else
    let c : ℚ := if i ≤ 28 then 130 else if i ≤ 51 then 100 else 105
    ⟨i, c, c, c, c, 1000⟩

/-- A 60-bar series matching the shrink-breakout pattern: decline from 130
to 100, a 10% limit-up bar at index 53, a five-bar pullback holding above
110, and a bullish signal bar at index 59 whose 5-bar average volume (1000)
is below the 10-bar average volume (1500). -/
def sbFix : List Bar := (List.range 60).map fun i =>
  if i = 53 then ⟨i, 101, 111, 101, 110, 2000⟩
  else if i = 59 then ⟨i, 113, 116, 113, 115, 1000⟩
  else
    let c : ℚ := if i ≤ 28 then 130 else if i ≤ 52 then 100
      else if i = 55 ∨ i = 57 then 112 else 111
    let v : ℚ := if i ≤ 54 then 2000 else 1000
    ⟨i, c, c, c, c, v⟩

/-- `sbFix` with every volume equal, so the 5-bar average volume equals
(is not below) the 10-bar average volume. -/
def sbFixV : List Bar := (List.range 60).map fun i =>
  if i = 53 then ⟨i, 101, 111, 101, 110, 2000⟩
  else if i = 59 then ⟨i, 113, 116, 113, 115, 2000⟩
  else
    let c : ℚ := if i ≤ 28 then 130 else if i ≤ 52 then 100
      else if i = 55 ∨ i = 57 then 112 else 111
    ⟨i, c, c, c, c, 2000⟩

/-- A 52-bar series for the consolidation search with `limit_up_idx = 51`:
the 22-bar window just before the limit-up bar (one close 1000, then 21
closes 860) violates the 15% amplitude bound, but longer windows (adding
more 1000 closes) satisfy it again from length 45 on. -/
def c4df : List Bar := (List.range 52).map fun i =>
  let c : ℚ := if i ≤ 29 then 1000 else 860
  ⟨i, c, c, c, c, 1000⟩

/-- Resonance counterexample input: reversal hits, sorted by score descending
as `run()` sorts them. -/
def c2rev : List HitRec := [⟨"B", "B", 60⟩, ⟨"A", "A", 50⟩]

/-- Resonance counterexample input: volume-breakout hits, sorted by score
descending. Symbol A's highest score (90) exceeds B's (60), but both have
hit count 2. -/
def c2vol : List HitRec := [⟨"A", "A", 90⟩, ⟨"B", "B", 10⟩]

/-- The detail `checkReversal` returns on `revFix`. -/
def revFixD : RevDetail := (checkReversal (some revFix)).getD default

/-- The detail `checkVB` returns on `vbFix`. -/
def vbFixD : VBDetail := (checkVB (some vbFix) "000001").getD default

/-- The detail `checkSB` returns on `sbFix`. -/
def sbFixD : SBDetail := (checkSB (some sbFix) "000002").getD default

/-! ### Helper lemmas -/

theorem ratFloor_eq_intFloor (q : ℚ) : q.floor = ⌊q⌋ := by
  rw [Rat.floor_def', Rat.floor_def]

theorem pyRound_ge_floor (q : ℚ) : ⌊q⌋ ≤ pyRound q := by
  simp only [pyRound, ratFloor_eq_intFloor]
  split_ifs <;> omega

theorem pyRound_le_floor_add_one (q : ℚ) : pyRound q ≤ ⌊q⌋ + 1 := by
  simp only [pyRound, ratFloor_eq_intFloor]
  split_ifs <;> omega

theorem le_pyRound {a : ℤ} {q : ℚ} (h : (a : ℚ) ≤ q) : a ≤ pyRound q :=
  le_trans (Int.le_floor.mpr h) (pyRound_ge_floor q)

theorem pyRound_le {a : ℤ} {q : ℚ} (h : q ≤ (a : ℚ)) : pyRound q ≤ a := by
  have hf : ⌊q⌋ ≤ a := by
    have := Int.floor_le_floor h
    rwa [Int.floor_intCast] at this
  rcases eq_or_lt_of_le hf with heq | hlt
  · have hq : q - (⌊q⌋ : ℚ) < 1/2 := by
      have h1 : q - (⌊q⌋ : ℚ) ≤ 0 := by
        have : (⌊q⌋ : ℚ) = (a : ℚ) := by exact_mod_cast heq
        linarith
      linarith
    simp only [pyRound, ratFloor_eq_intFloor]
    rw [if_pos hq]
    exact hf
  · exact le_trans (pyRound_le_floor_add_one q) (by omega)

theorem pyRound_mono {x y : ℚ} (h : x ≤ y) : pyRound x ≤ pyRound y := by
  rcases lt_or_ge ⌊x⌋ ⌊y⌋ with hf | hf
  · calc pyRound x ≤ ⌊x⌋ + 1 := pyRound_le_floor_add_one x
      _ ≤ ⌊y⌋ := by omega
      _ ≤ pyRound y := pyRound_ge_floor y
  · have hfe : ⌊x⌋ = ⌊y⌋ := le_antisymm (Int.floor_le_floor h) hf
    have hr : x - (⌊x⌋ : ℚ) ≤ y - (⌊y⌋ : ℚ) := by
      rw [hfe]; linarith
    simp only [pyRound, ratFloor_eq_intFloor, hfe]
    split_ifs <;> first | omega | (exfalso; linarith)

theorem pyRound_clamp_mem (s : ℚ) :
    0 ≤ pyRound (min 100 (max 0 s)) ∧ pyRound (min 100 (max 0 s)) ≤ 100 := by
  constructor
  · apply le_pyRound
    push_cast
    exact le_min (by norm_num) (le_max_left 0 s)
  · apply pyRound_le
    push_cast
    exact min_le_left _ _

theorem revScore_mem (d2c gap : ℚ) (ne : Bool) (d2gap d3c contrast shadow : ℚ) :
    0 ≤ revScore d2c gap ne d2gap d3c contrast shadow ∧
      revScore d2c gap ne d2gap d3c contrast shadow ≤ 100 := by
  simp only [revScore]
  exact pyRound_clamp_mem _

theorem revScore_ge_forty (d2c gap : ℚ) (ne : Bool) (d2gap d3c contrast shadow : ℚ)
    (h2 : 3 ≤ |d2c|) (hc : 3/2 ≤ contrast) (hs : shadow ≤ 30) :
    40 ≤ revScore d2c gap ne d2gap d3c contrast shadow := by
  simp only [revScore]
  apply le_pyRound
  push_cast
  have t1 : (0:ℚ) ≤ min (|d2c| - 3) 5 * 2 :=
    mul_nonneg (le_min (by linarith) (by norm_num)) (by norm_num)
  have t2 : (0:ℚ) ≤ min |gap| 3 * 2 :=
    mul_nonneg (le_min (abs_nonneg _) (by norm_num)) (by norm_num)
  have t3 : (0:ℚ) ≤ (if ne = true then (8:ℚ) else 0) := by
    split <;> norm_num
  have t4 : (0:ℚ) ≤ (if d2gap < 0 then min |d2gap| 2 * 5 else 0) := by
    split
    · exact mul_nonneg (le_min (abs_nonneg _) (by norm_num)) (by norm_num)
    · norm_num
  have t5 : (0:ℚ) ≤ (if d3c ≤ 3 then (8:ℚ) else if d3c ≤ 5 then 4 else 0) := by
    split_ifs <;> norm_num
  have t6 : (0:ℚ) ≤ min (contrast - 1.5) 3 * 3.33 := by
    apply mul_nonneg _ (by norm_num)
    apply le_min _ (by norm_num)
    linarith
  have t7 : (2:ℚ) ≤ (if shadow ≤ 10 then (8:ℚ) else if shadow ≤ 20 then 5
      else if shadow ≤ 30 then 2 else 0) := by
    by_cases hh1 : shadow ≤ 10
    · rw [if_pos hh1]; norm_num
    · rw [if_neg hh1]
      by_cases hh2 : shadow ≤ 20
      · rw [if_pos hh2]; norm_num
      · rw [if_neg hh2, if_pos hs]
  refine le_min (by norm_num) (le_trans ?_ (le_max_right 0 _))
  linarith

theorem checkReversal_some_spec (odf : Option (List Bar)) (d : RevDetail)
    (h : checkReversal odf = some d) :
    ∃ d1c d2c gap ne d2gap d3c shadow,
      d.score = revScore d2c gap ne d2gap d3c
        (if 0 < |d1c| then |d2c| / |d1c| else 0) shadow ∧
      day1SmallCond d1c ∧ day2BigCond d2c ∧ shadow ≤ 30 := by
  match odf with
  | none => exact Option.noConfusion h
  | some df =>
    simp only [checkReversal] at h
    split at h
    · exact Option.noConfusion h
    split at h
    · exact Option.noConfusion h
    split at h
    · exact Option.noConfusion h
    split at h
    · exact Option.noConfusion h
    split at h
    · exact Option.noConfusion h
    split at h
    case isTrue hcond =>
      obtain ⟨hb1, hsmall, hb2, hbig, hgap, hb3, hstrong, hshadow⟩ := hcond
      obtain rfl := (Option.some.inj h).symm
      exact ⟨_, _, _, _, _, _, _, rfl, hsmall, hbig, hshadow⟩
    case isFalse => exact Option.noConfusion h

theorem vbCalculateScore_mem (a : ℚ) (b : ℕ) (c e f : ℚ) (g : ℕ) (j k : ℚ) :
    0 ≤ vbCalculateScore a b c e f g j k ∧ vbCalculateScore a b c e f g j k ≤ 100 := by
  simp only [vbCalculateScore]
  exact pyRound_clamp_mem _

theorem vbCandidate_score_mem (df : List Bar) (code : String) (i : ℕ) (d : VBDetail)
    (h : vbCandidate df code i = some d) : 0 ≤ d.score ∧ d.score ≤ 100 := by
  simp only [vbCandidate] at h
  split at h
  case isTrue =>
    split at h
    · exact Option.noConfusion h
    split at h
    · exact Option.noConfusion h
    split at h
    · exact Option.noConfusion h
    split at h
    · exact Option.noConfusion h
    split at h
    · exact Option.noConfusion h
    obtain rfl := (Option.some.inj h).symm
    exact vbCalculateScore_mem _ _ _ _ _ _ _ _
  case isFalse => exact Option.noConfusion h

theorem vbScan_some_mem (df : List Bar) (code : String) (P : VBDetail → Prop)
    (hP : ∀ i d, vbCandidate df code i = some d → P d) :
    ∀ (ls : List ℕ) (best : Option VBDetail) (d : VBDetail),
      (∀ b, best = some b → P b) → vbScan df code ls best = some d → P d := by
  intro ls
  induction ls with
  | nil =>
    intro best d hbest h
    exact hbest d h
  | cons i rest ih =>
    intro best d hbest h
    simp only [vbScan] at h
    split at h
    · exact hbest d h
    · split at h
      · exact ih best d hbest h
      next e he =>
        refine ih (vbStep best e) d ?_ h
        intro b hb
        cases best with
        | none =>
          have hb2 : some e = some b := hb
          exact (Option.some.inj hb2) ▸ hP i e he
        | some b0 =>
          have hb2 : (if b0.score < e.score then some e else some b0) = some b := hb
          by_cases hlt : b0.score < e.score
          · rw [if_pos hlt] at hb2
            exact (Option.some.inj hb2) ▸ hP i e he
          · rw [if_neg hlt] at hb2
            exact (Option.some.inj hb2) ▸ hbest b0 rfl

theorem sbCalculateScore_mem (a : ℕ) (b : ℚ) (c : LimitUpType) (e f g : ℚ) :
    0 ≤ sbCalculateScore a b c e f g ∧ sbCalculateScore a b c e f g ≤ 100 := by
  simp only [sbCalculateScore]
  exact ⟨le_min (by norm_num) (le_max_left _ _), min_le_left _ _⟩

theorem checkSB_some_score (odf : Option (List Bar)) (code : String) (d : SBDetail)
    (h : checkSB odf code = some d) :
    ∃ a b c e f g, d.score = sbCalculateScore a b c e f g := by
  match odf with
  | none => exact Option.noConfusion h
  | some df =>
    simp only [checkSB] at h
    split at h
    · exact Option.noConfusion h
    split at h
    · exact Option.noConfusion h
    split at h
    · exact Option.noConfusion h
    split at h
    · exact Option.noConfusion h
    split at h
    · exact Option.noConfusion h
    split at h
    · exact Option.noConfusion h
    obtain rfl := (Option.some.inj h).symm
    exact ⟨_, _, _, _, _, _, rfl⟩

/-! ### Claims -/

/-- Claim C1: for every bar series and symbol code on which a detector
reports matched, the `score` of the returned result is an integer with
`0 ≤ score ≤ 100`, for all three detectors. -/
theorem c1_score_bounds (odf : Option (List Bar)) (code : String) :
    (∀ d, checkReversal odf = some d → 0 ≤ d.score ∧ d.score ≤ 100) ∧
    (∀ d, checkVB odf code = some d → 0 ≤ d.score ∧ d.score ≤ 100) ∧
    (∀ d, checkSB odf code = some d → 0 ≤ d.score ∧ d.score ≤ 100) := by
  refine ⟨?_, ?_, ?_⟩
  · intro d h
    obtain ⟨d1c, d2c, gap, ne, d2gap, d3c, shadow, hscore, _, _, _⟩ :=
      checkReversal_some_spec odf d h
    rw [hscore]
    exact revScore_mem _ _ _ _ _ _ _
  · intro d h
    cases odf with
    | none => exact Option.noConfusion h
    | some df =>
      simp only [checkVB] at h
      split at h
      · exact Option.noConfusion h
      split at h
      · exact Option.noConfusion h
      split at h
      · exact Option.noConfusion h
      exact vbScan_some_mem df code (fun e => 0 ≤ e.score ∧ e.score ≤ 100)
        (fun i e he => vbCandidate_score_mem df code i e he) _ none d
        (fun b hb => Option.noConfusion hb) h
  · intro d h
    obtain ⟨a, b, c, e, f, g, hscore⟩ := checkSB_some_score odf code d h
    rw [hscore]
    exact sbCalculateScore_mem _ _ _ _ _ _

/-- Witness for C1: the three concrete matching fixtures. -/
theorem c1_score_bounds_witness :
    (0 ≤ revFixD.score ∧ revFixD.score ≤ 100) ∧
    (0 ≤ vbFixD.score ∧ vbFixD.score ≤ 100) ∧
    (0 ≤ sbFixD.score ∧ sbFixD.score ≤ 100) :=
  ⟨(c1_score_bounds (some revFix) "000001").1 revFixD (by with_unfolding_all rfl),
   (c1_score_bounds (some vbFix) "000001").2.1 vbFixD (by with_unfolding_all rfl),
   (c1_score_bounds (some sbFix) "000002").2.2 sbFixD (by with_unfolding_all rfl)⟩

/-- Claim C9: every matched Reversal result has score at least 40 (hence in
`[40, 100]`): the base is 40, and under the match preconditions every bonus
term is non-negative, since `|day2Δ| ≥ 3` and `|day1Δ| ≤ 2` force the
contrast ratio to be at least 1.5. -/
theorem c9_reversal_score_floor (odf : Option (List Bar)) (d : RevDetail)
    (h : checkReversal odf = some d) : 40 ≤ d.score ∧ d.score ≤ 100 := by
  obtain ⟨d1c, d2c, gap, ne, d2gap, d3c, shadow, hscore, hsmall, hbig, hshadow⟩ :=
    checkReversal_some_spec odf d h
  obtain ⟨hs1, hs2⟩ := hsmall
  have hb : (3:ℚ) ≤ |d2c| := by
    have h2 : reversalConfig.big_bear_min ≤ |d2c| := hbig
    have hc3 : reversalConfig.big_bear_min = 3 := by norm_num [reversalConfig]
    rwa [hc3] at h2
  have hpos : (0:ℚ) < |d1c| := by
    have hc03 : reversalConfig.small_bear_min = 0.3 := by norm_num [reversalConfig]
    rw [hc03] at hs1
    linarith
  have h2le : |d1c| ≤ 2 := by
    have hc2 : reversalConfig.small_bear_max = 2 := by norm_num [reversalConfig]
    rwa [hc2] at hs2
  have hcon : (3:ℚ)/2 ≤ (if 0 < |d1c| then |d2c| / |d1c| else 0) := by
    rw [if_pos hpos, le_div_iff₀ hpos]
    nlinarith [hb, h2le]
  constructor
  · rw [hscore]
    exact revScore_ge_forty _ _ _ _ _ _ _ hb hcon hshadow
  · rw [hscore]
    exact (revScore_mem _ _ _ _ _ _ _).2

/-- Witness for C9: the concrete matching Reversal fixture. -/
theorem c9_reversal_score_floor_witness : 40 ≤ revFixD.score ∧ revFixD.score ≤ 100 :=
  c9_reversal_score_floor (some revFix) revFixD (by with_unfolding_all rfl)

/-- Claim C5: for every series shorter than the detector's minimum length
(25 = 3 + priorDeclineDays for Reversal, 50 for Volume-Breakout, 60 for
Shrink-Breakout) and for a missing (`None`) series, the detector returns
not-matched and raises no exception (the embedding is total). -/
theorem c5_min_length :
    (checkReversal none = none ∧
      ∀ code : String, checkVB none code = none ∧ checkSB none code = none) ∧
    (∀ (l : List Bar) (code : String),
      (l.length < 25 → checkReversal (some l) = none) ∧
      (l.length < 50 → checkVB (some l) code = none) ∧
      (l.length < 60 → checkSB (some l) code = none)) := by
  refine ⟨⟨rfl, fun code => ⟨rfl, rfl⟩⟩, ?_⟩
  intro l code
  refine ⟨?_, ?_, ?_⟩
  · intro h
    simp only [checkReversal]
    rw [if_pos (show l.length < 3 + reversalConfig.prior_decline_days from h)]
  · intro h
    simp only [checkVB]
    rw [if_pos h]
  · intro h
    simp only [checkSB]
    rw [if_pos h]

/-- Witness for C5: the empty series. -/
theorem c5_min_length_witness :
    checkReversal (some []) = none ∧ checkVB (some []) "000001" = none ∧
      checkSB (some []) "000001" = none :=
  ⟨(c5_min_length.2 [] "000001").1 (by decide),
   (c5_min_length.2 [] "000001").2.1 (by decide),
   (c5_min_length.2 [] "000001").2.2 (by decide)⟩

/-- Claim C6: the Shrink-Breakout detector matches only if the most recent
bar is bullish and the 5-bar average volume is strictly below the 10-bar
average volume; whenever the 5-bar average is at least the 10-bar average
it returns not-matched. -/
theorem c6_sb_signal (df : List Bar) (code : String) :
    (∀ d, checkSB (some df) code = some d →
      (barAt df (df.length - 1)).open_ < (barAt df (df.length - 1)).close ∧
      volMA df sbConfig.vol_ma_short < volMA df sbConfig.vol_ma_long) ∧
    (volMA df sbConfig.vol_ma_long ≤ volMA df sbConfig.vol_ma_short →
      checkSB (some df) code = none) := by
  constructor
  · intro d h
    simp only [checkSB] at h
    split at h
    · exact Option.noConfusion h
    split at h
    · exact Option.noConfusion h
    next sig hsig =>
      simp only [sbCheckSignal] at hsig
      split at hsig
      · exact Option.noConfusion hsig
      next hbull =>
        split at hsig
        · exact Option.noConfusion hsig
        split at hsig
        · exact Option.noConfusion hsig
        split at hsig
        · exact Option.noConfusion hsig
        next hlt => exact ⟨not_le.mp hbull, not_le.mp hlt⟩
  · intro hle
    simp only [checkSB]
    by_cases h60 : df.length < 60
    · rw [if_pos h60]
    · rw [if_neg h60]
      have hsig : sbCheckSignal df = none := by
        simp only [sbCheckSignal]
        by_cases hb : (barAt df (df.length - 1)).close ≤ (barAt df (df.length - 1)).open_
        · rw [if_pos hb]
        · rw [if_neg hb]
          by_cases hn : df.length < sbConfig.vol_ma_long
          · rw [if_pos hn]
          · rw [if_neg hn]
            by_cases hz : volMA df sbConfig.vol_ma_long = 0
            · rw [if_pos hz]
            · rw [if_neg hz, if_pos hle]
      rw [hsig]

/-- Witness for C6: `sbFix` matches (so its signal is bullish with shrinking
volume); `sbFixV`, whose 5-bar average volume equals the 10-bar average,
is not matched. -/
theorem c6_sb_signal_witness :
    ((barAt sbFix (sbFix.length - 1)).open_ < (barAt sbFix (sbFix.length - 1)).close ∧
      volMA sbFix sbConfig.vol_ma_short < volMA sbFix sbConfig.vol_ma_long) ∧
    checkSB (some sbFixV) "000002" = none :=
  ⟨(c6_sb_signal sbFix "000002").1 sbFixD (by with_unfolding_all rfl),
   (c6_sb_signal sbFixV "000002").2 (by with_unfolding_all rfl)⟩

/-- Claim C8: the Reversal per-day change thresholds are inclusive: a day1
magnitude of exactly 0.3 (or 2.0), a day2 magnitude of exactly 3.0 and a
day3 change of exactly 1.0 satisfy the conditions, while values strictly
outside the bounds fail them. -/
theorem c8_reversal_thresholds :
    day1SmallCond (-0.3) ∧ day1SmallCond (-2) ∧ day2BigCond (-3) ∧ day3StrongCond 1 ∧
    (∀ x : ℚ, |x| < 0.3 → ¬ day1SmallCond x) ∧
    (∀ x : ℚ, 2 < |x| → ¬ day1SmallCond x) ∧
    (∀ x : ℚ, |x| < 3 → ¬ day2BigCond x) ∧
    (∀ x : ℚ, x < 1 → ¬ day3StrongCond x) := by
  refine ⟨?_, ?_, ?_, ?_, ?_, ?_, ?_, ?_⟩
  · with_unfolding_all decide
  · with_unfolding_all decide
  · with_unfolding_all decide
  · with_unfolding_all decide
  · rintro x hx ⟨h1, _⟩
    norm_num [reversalConfig] at h1
    linarith
  · rintro x hx ⟨_, h2⟩
    norm_num [reversalConfig] at h2
    linarith
  · intro x hx h1
    norm_num [reversalConfig] at h1
    linarith
  · intro x hx h1
    norm_num [reversalConfig] at h1
    linarith

/-- Witness for C8: concrete values strictly outside each bound. -/
theorem c8_reversal_thresholds_witness :
    ¬ day1SmallCond 0.1 ∧ ¬ day1SmallCond (-3) ∧ ¬ day2BigCond 1 ∧ ¬ day3StrongCond 0.5 :=
  ⟨c8_reversal_thresholds.2.2.2.2.1 0.1 (by with_unfolding_all decide),
   c8_reversal_thresholds.2.2.2.2.2.1 (-3) (by with_unfolding_all decide),
   c8_reversal_thresholds.2.2.2.2.2.2.1 1 (by with_unfolding_all decide),
   c8_reversal_thresholds.2.2.2.2.2.2.2 0.5 (by with_unfolding_all decide)⟩

/-- Claim C10: if the bar before the most recent bar has volume exactly 0,
the Volume-Breakout detector returns not-matched (without raising), even
when the most recent bar's volume is greater; and on any matched result
the prior bar's volume is non-zero, so the breakout volume-ratio division
is well defined. -/
theorem c10_vb_zero_volume_guard (df : List Bar) (code : String) :
    ((barAt df (df.length - 2)).volume = 0 → checkVB (some df) code = none) ∧
    (∀ d, checkVB (some df) code = some d → (barAt df (df.length - 2)).volume ≠ 0) := by
  constructor
  · intro hv
    simp only [checkVB]
    by_cases h50 : df.length < 50
    · rw [if_pos h50]
    · rw [if_neg h50]
      by_cases hb : (barAt df (df.length - 1)).close ≤ (barAt df (df.length - 1)).open_
      · rw [if_pos hb]
      · rw [if_neg hb, if_pos (Or.inl hv)]
  · intro d h
    simp only [checkVB] at h
    split at h
    · exact Option.noConfusion h
    split at h
    · exact Option.noConfusion h
    split at h
    · exact Option.noConfusion h
    rename_i hguard
    exact fun heq => hguard (Or.inl heq)

/-- Witness for C10: `vbFixZ` (prior volume 0, breakout volume 2000) is not
matched; the matched `vbFix` has non-zero prior volume. -/
theorem c10_vb_zero_volume_guard_witness :
    checkVB (some vbFixZ) "000001" = none ∧ (barAt vbFix (vbFix.length - 2)).volume ≠ 0 :=
  ⟨(c10_vb_zero_volume_guard vbFixZ "000001").1 (by with_unfolding_all rfl),
   (c10_vb_zero_volume_guard vbFix "000001").2 vbFixD (by with_unfolding_all rfl)⟩

/-- Claim C7: within the matched regime, the Reversal score is monotonically
non-decreasing in the magnitude of day2's decline, all other score inputs
(day1 change, day3 gap, day2's own gap, engulfment flag, day3 change,
max upper shadow) held fixed. -/
theorem c7_reversal_monotone (d1c d2c d2cB gap : ℚ) (ne : Bool) (d2gap d3c shadow : ℚ)
    (h1a : 0.3 ≤ |d1c|) (_h1b : |d1c| ≤ 2)
    (_hb1 : d2c < 0) (_hb2 : d2cB < 0) (_hbig : 3 ≤ |d2c|) (hle : |d2c| ≤ |d2cB|) :
    revScoreOf d1c d2c gap ne d2gap d3c shadow ≤
      revScoreOf d1c d2cB gap ne d2gap d3c shadow := by
  have hpos : (0:ℚ) < |d1c| := by linarith
  simp only [revScoreOf, revScore, if_pos hpos]
  apply pyRound_mono
  have hterm1 : min (|d2c| - 3) 5 * 2 ≤ min (|d2cB| - 3) 5 * 2 := by
    have := min_le_min (sub_le_sub_right hle 3) (le_refl (5:ℚ))
    linarith
  have hdiv : |d2c| / |d1c| ≤ |d2cB| / |d1c| := by gcongr
  have hterm2 : min (|d2c| / |d1c| - 1.5) 3 * 3.33 ≤ min (|d2cB| / |d1c| - 1.5) 3 * 3.33 := by
    have := min_le_min (sub_le_sub_right hdiv 1.5) (le_refl (3:ℚ))
    linarith
  apply min_le_min (le_refl _)
  apply max_le_max (le_refl _)
  linarith [hterm1, hterm2]

/-- Witness for C7: deepening day2's decline from -4% to -5% does not
decrease the score. -/
theorem c7_reversal_monotone_witness :
    revScoreOf (-1) (-4) (-1) true 0 2 0 ≤ revScoreOf (-1) (-5) (-1) true 0 2 0 :=
  c7_reversal_monotone (-1) (-4) (-5) (-1) true 0 2 0 (by norm_num) (by norm_num)
    (by norm_num) (by norm_num) (by norm_num) (by norm_num)

theorem vbConsolLoop_some (df : List Bar) (cend : ℕ) :
    ∀ (ls : List ℕ) (w : ConsolWindow),
      vbConsolLoop df cend ls (some w) = some (vbConsolPhase2 df cend ls w) := by
  intro ls
  induction ls with
  | nil => intro w; rfl
  | cons len rest ih =>
    intro w
    simp only [vbConsolLoop, vbConsolPhase2]
    cases vbClassify df cend len with
    | ok w2 => exact ih w2
    | skip => exact ih w
    | bad => rfl
    | stop => rfl

theorem vbConsolLoop_none (df : List Bar) (cend : ℕ) :
    ∀ ls : List ℕ, vbConsolLoop df cend ls none = vbConsolPhase1 df cend ls := by
  intro ls
  induction ls with
  | nil => rfl
  | cons len rest ih =>
    simp only [vbConsolLoop, vbConsolPhase1]
    cases vbClassify df cend len with
    | ok w => exact vbConsolLoop_some df cend rest w
    | skip => exact ih
    | bad => exact ih
    | stop => rfl

/-- Claim C4 (amended): the Volume-Breakout pre-consolidation window is found
by growing backward from the bar before the limit-up bar, testing the
closing-price amplitude bound at each length from 22 up to
`min(limit_up_idx - 1, 79)`; the longest satisfying length is kept, and
growth stops at the first violating length only after at least one length
has satisfied the bound (a violation before any satisfying length does not
stop the scan; zero-mean windows are skipped). This is exactly the
two-phase search `vbFindConsolidationTwoPhase`. -/
theorem c4_consolidation_amended (df : List Bar) (limit_up_idx : ℕ) :
    vbFindConsolidation df limit_up_idx = vbFindConsolidationTwoPhase df limit_up_idx := by
  simp only [vbFindConsolidation, vbFindConsolidationTwoPhase]
  split
  · rfl
  · exact vbConsolLoop_none df (limit_up_idx - 1) (vbConsolLengths (limit_up_idx - 1))

/-- Counterexample for C4 as stated: on `c4df` with the limit-up bar at
index 51, the nearest 22-bar window violates the amplitude bound, so the
spec's literal procedure ("stop growth at the first length that violates
the bound") finds no window, while the source keeps scanning and returns a
50-bar window. -/
theorem c4_consolidation_counterexample :
    vbFindConsolidation c4df 51 ≠ vbFindConsolidationClaimed c4df 51 := by
  with_unfolding_all decide

theorem vbScan_eq_fold (df : List Bar) (code : String) :
    ∀ (ls : List ℕ) (best : Option VBDetail),
      vbScan df code ls best =
        ((ls.takeWhile (fun i => decide (1 ≤ df.length - 1 - i))).filterMap
          (vbCandidate df code)).foldl vbStep best := by
  intro ls
  induction ls with
  | nil => intro best; rfl
  | cons i rest ih =>
    intro best
    simp only [vbScan, List.takeWhile_cons]
    by_cases hge : 1 ≤ df.length - 1 - i
    · have hlt : ¬ df.length - 1 - i < 1 := by omega
      rw [if_neg hlt, decide_eq_true hge]
      simp only [if_true]
      cases hc : vbCandidate df code i with
      | none => simp only [List.filterMap_cons, hc]; exact ih best
      | some e => simp only [List.filterMap_cons, hc, List.foldl_cons]; exact ih (vbStep best e)
    · have hlt : df.length - 1 - i < 1 := by omega
      rw [if_pos hlt, decide_eq_false hge]
      simp

theorem foldl_vbStep_some (l : List VBDetail) :
    ∀ b d : VBDetail, l.foldl vbStep (some b) = some d →
      (d = b ∧ ∀ e ∈ l, e.score ≤ b.score) ∨
      (∃ pre post, l = pre ++ d :: post ∧ b.score < d.score ∧
        (∀ e ∈ pre, e.score < d.score) ∧ (∀ e ∈ post, e.score ≤ d.score)) := by
  induction l with
  | nil =>
    intro b d h
    exact Or.inl ⟨(Option.some.inj h).symm, by simp⟩
  | cons x xs ih =>
    intro b d h
    simp only [List.foldl_cons, vbStep] at h
    by_cases hx : b.score < x.score
    · rw [if_pos hx] at h
      rcases ih x d h with ⟨rfl, hall⟩ | ⟨pre, post, heq, hbd, hpre, hpost⟩
      · exact Or.inr ⟨[], xs, rfl, hx, by simp, hall⟩
      · refine Or.inr ⟨x :: pre, post, by rw [heq, List.cons_append], lt_trans hx hbd, ?_, hpost⟩
        intro e he
        rcases List.mem_cons.mp he with rfl | he2
        · exact hbd
        · exact hpre e he2
    · rw [if_neg hx] at h
      push_neg at hx
      rcases ih b d h with ⟨rfl, hall⟩ | ⟨pre, post, heq, hbd, hpre, hpost⟩
      · refine Or.inl ⟨rfl, ?_⟩
        intro e he
        rcases List.mem_cons.mp he with rfl | he2
        · exact hx
        · exact hall e he2
      · refine Or.inr ⟨x :: pre, post, by rw [heq, List.cons_append], hbd, ?_, hpost⟩
        intro e he
        rcases List.mem_cons.mp he with rfl | he2
        · exact lt_of_le_of_lt hx hbd
        · exact hpre e he2

theorem foldl_vbStep_none (l : List VBDetail) (d : VBDetail)
    (h : l.foldl vbStep none = some d) :
    ∃ pre post, l = pre ++ d :: post ∧ (∀ e ∈ pre, e.score < d.score) ∧
      (∀ e ∈ post, e.score ≤ d.score) := by
  cases l with
  | nil => exact Option.noConfusion h
  | cons x xs =>
    have h2 : xs.foldl vbStep (some x) = some d := h
    rcases foldl_vbStep_some xs x d h2 with ⟨rfl, hall⟩ | ⟨pre, post, heq, hbd, hpre, hpost⟩
    · exact ⟨[], xs, rfl, by simp, hall⟩
    · refine ⟨x :: pre, post, by rw [heq, List.cons_append], ?_, hpost⟩
      intro e he
      rcases List.mem_cons.mp he with rfl | he2
      · exact hbd
      · exact hpre e he2

/-- Claim C3: when the Volume-Breakout detector reports matched, the
returned detail is the valid candidate (from the backward scan over the
`min(20, len-30)`-bar lookback window, nearest to farthest) whose score is
maximal; on exact score ties the first-encountered (nearest) candidate is
kept. Formally: the scan's valid candidates split around the returned
detail with strictly smaller scores before it and no larger score after. -/
theorem c3_vb_best_candidate (df : List Bar) (code : String) (d : VBDetail)
    (h : checkVB (some df) code = some d) :
    ∃ pre post, vbValidCandidates df code = pre ++ d :: post ∧
      (∀ e ∈ pre, e.score < d.score) ∧ (∀ e ∈ post, e.score ≤ d.score) := by
  simp only [checkVB] at h
  split at h
  · exact Option.noConfusion h
  split at h
  · exact Option.noConfusion h
  split at h
  · exact Option.noConfusion h
  rw [vbScan_eq_fold] at h
  exact foldl_vbStep_none _ d h

/-- Witness for C3: on `vbFix` the detector matches and its returned detail
is the (single) valid candidate of the scan. -/
theorem c3_vb_best_candidate_witness :
    ∃ pre post, vbValidCandidates vbFix "000001" = pre ++ vbFixD :: post ∧
      (∀ e ∈ pre, e.score < vbFixD.score) ∧ (∀ e ∈ post, e.score ≤ vbFixD.score) :=
  c3_vb_best_candidate vbFix "000001" vbFixD (by with_unfolding_all rfl)

theorem lookupInfo_insertHit (strat : Strategy) (r : HitRec) :
    ∀ (m : List (String × HitInfo)) (c : String),
      lookupInfo c (insertHit strat r m) =
        if r.code = c then
          (match lookupInfo c m with
           | none => some ⟨r.name, [strat], [(strat, r.score)]⟩
           | some i => some ⟨i.name, i.strategies ++ [strat], i.scores ++ [(strat, r.score)]⟩)
        else lookupInfo c m := by
  intro m
  induction m with
  | nil =>
    intro c
    simp only [insertHit, lookupInfo]
  | cons kv rest ih =>
    intro c
    obtain ⟨k, info⟩ := kv
    simp only [insertHit]
    by_cases hk : k = r.code
    · rw [if_pos hk]
      simp only [lookupInfo]
      by_cases hc : k = c
      · rw [if_pos hc, if_pos hc, if_pos (hk.symm.trans hc)]
      · rw [if_neg hc, if_neg hc]
        by_cases hrc : r.code = c
        · exact absurd (hk.trans hrc) hc
        · rw [if_neg hrc]
    · rw [if_neg hk]
      simp only [lookupInfo]
      by_cases hc : k = c
      · rw [if_pos hc, if_pos hc]
        have hrc : ¬ r.code = c := fun hh => hk (hc.trans hh.symm)
        rw [if_neg hrc]
      · rw [if_neg hc, if_neg hc]
        exact ih c

theorem stratCount_insertHit (strat : Strategy) (r : HitRec)
    (m : List (String × HitInfo)) (c : String) :
    stratCount (insertHit strat r m) c =
      stratCount m c + (if r.code = c then 1 else 0) := by
  simp only [stratCount, lookupInfo_insertHit]
  by_cases hrc : r.code = c
  · rw [if_pos hrc, if_pos hrc]
    cases hm : lookupInfo c m with
    | none => simp
    | some i => simp
  · rw [if_neg hrc, if_neg hrc]
    simp

theorem stratCount_addHits_of_not_mem (strat : Strategy) :
    ∀ (rs : List HitRec) (m : List (String × HitInfo)) (c : String),
      c ∉ rs.map (·.code) → stratCount (addHits strat rs m) c = stratCount m c := by
  intro rs
  induction rs with
  | nil => intro m c _; rfl
  | cons r rest ih =>
    intro m c hc
    simp only [List.map_cons, List.mem_cons, not_or] at hc
    have h1 : stratCount (addHits strat rest (insertHit strat r m)) c =
        stratCount (insertHit strat r m) c := ih (insertHit strat r m) c hc.2
    have h2 := stratCount_insertHit strat r m c
    rw [if_neg (fun hh => hc.1 hh.symm)] at h2
    simpa [addHits, h2] using h1

theorem stratCount_addHits (strat : Strategy) :
    ∀ (rs : List HitRec) (m : List (String × HitInfo)) (c : String),
      (rs.map (·.code)).Nodup →
      stratCount (addHits strat rs m) c =
        stratCount m c + (if c ∈ rs.map (·.code) then 1 else 0) := by
  intro rs
  induction rs with
  | nil => intro m c _; simp [addHits]
  | cons r rest ih =>
    intro m c hnd
    simp only [List.map_cons, List.nodup_cons] at hnd
    have h1 := ih (insertHit strat r m) c hnd.2
    have h2 := stratCount_insertHit strat r m c
    simp only [addHits] at h1 ⊢
    rw [List.foldl_cons, h1, h2]
    by_cases hrc : r.code = c
    · have hcr : c ∉ rest.map (·.code) := hrc ▸ hnd.1
      rw [if_pos hrc, if_neg hcr,
        if_pos (show c ∈ (r :: rest).map (·.code) by simp [hrc.symm])]
    · have hiff : (c ∈ (r :: rest).map (·.code)) ↔ (c ∈ rest.map (·.code)) := by
        simp only [List.map_cons, List.mem_cons]
        constructor
        · rintro (hh | hh)
          · exact absurd hh.symm hrc
          · exact hh
        · exact Or.inr
      rw [if_neg hrc]
      by_cases hcm : c ∈ rest.map (·.code)
      · rw [if_pos hcm, if_pos (hiff.mpr hcm)]
      · rw [if_neg hcm, if_neg (fun hh => hcm (hiff.mp hh))]

theorem stratCount_hitMap (rev vol shr : List HitRec) (c : String)
    (h1 : (rev.map (·.code)).Nodup) (h2 : (vol.map (·.code)).Nodup)
    (h3 : (shr.map (·.code)).Nodup) :
    stratCount (hitMap rev vol shr) c = hitInd rev c + hitInd vol c + hitInd shr c := by
  simp only [hitMap]
  rw [stratCount_addHits _ _ _ _ h3, stratCount_addHits _ _ _ _ h2,
    stratCount_addHits _ _ _ _ h1]
  simp only [stratCount, lookupInfo, hitInd]
  omega

theorem keys_insertHit (strat : Strategy) (r : HitRec) :
    ∀ m : List (String × HitInfo),
      (insertHit strat r m).map Prod.fst =
        if r.code ∈ m.map Prod.fst then m.map Prod.fst else m.map Prod.fst ++ [r.code] := by
  intro m
  induction m with
  | nil => simp [insertHit]
  | cons kv rest ih =>
    obtain ⟨k, info⟩ := kv
    simp only [insertHit]
    by_cases hk : k = r.code
    · rw [if_pos hk]
      have hmem : r.code ∈ ((k, info) :: rest).map Prod.fst := by simp [hk.symm]
      rw [if_pos hmem]
      simp
    · rw [if_neg hk]
      simp only [List.map_cons, ih]
      by_cases hmem : r.code ∈ rest.map Prod.fst
      · rw [if_pos hmem, if_pos (by simp [hmem])]
      · rw [if_neg hmem, if_neg (show r.code ∉ k :: List.map Prod.fst rest by
          simp only [List.mem_cons]
          push_neg
          exact ⟨fun hh => hk hh.symm, hmem⟩)]
        simp

theorem nodup_keys_insertHit (strat : Strategy) (r : HitRec)
    (m : List (String × HitInfo)) (h : (m.map Prod.fst).Nodup) :
    ((insertHit strat r m).map Prod.fst).Nodup := by
  rw [keys_insertHit]
  split_ifs with hmem
  · exact h
  · simp [List.nodup_append, h, hmem]

theorem nodup_keys_addHits (strat : Strategy) :
    ∀ (rs : List HitRec) (m : List (String × HitInfo)),
      (m.map Prod.fst).Nodup → ((addHits strat rs m).map Prod.fst).Nodup := by
  intro rs
  induction rs with
  | nil => intro m h; exact h
  | cons r rest ih =>
    intro m h
    exact ih (insertHit strat r m) (nodup_keys_insertHit strat r m h)

theorem nodup_keys_hitMap (rev vol shr : List HitRec) :
    ((hitMap rev vol shr).map Prod.fst).Nodup := by
  exact nodup_keys_addHits _ shr _ (nodup_keys_addHits _ vol _
    (nodup_keys_addHits _ rev _ (by simp)))

theorem mem_of_lookupInfo (c : String) (i : HitInfo) :
    ∀ m : List (String × HitInfo), lookupInfo c m = some i → (c, i) ∈ m := by
  intro m
  induction m with
  | nil => intro h; exact Option.noConfusion h
  | cons kv rest ih =>
    intro h
    obtain ⟨k, info⟩ := kv
    simp only [lookupInfo] at h
    split at h
    · next hk =>
      obtain rfl := Option.some.inj h
      exact hk ▸ List.mem_cons_self _ _
    · exact List.mem_cons_of_mem _ (ih h)

theorem lookupInfo_of_mem (c : String) (i : HitInfo) :
    ∀ m : List (String × HitInfo), (m.map Prod.fst).Nodup → (c, i) ∈ m →
      lookupInfo c m = some i := by
  intro m
  induction m with
  | nil => intro _ h; exact absurd h (List.not_mem_nil _)
  | cons kv rest ih =>
    intro hnd h
    obtain ⟨k, info⟩ := kv
    simp only [List.map_cons, List.nodup_cons] at hnd
    rcases List.mem_cons.mp h with heq | hmem
    · injection heq with hc hi
      simp only [lookupInfo]
      rw [if_pos hc.symm, hi]
    · have hkc : ¬ k = c := by
        intro hkc
        subst hkc
        exact hnd.1 (List.mem_map_of_mem Prod.fst hmem)
      simp only [lookupInfo]
      rw [if_neg hkc]
      exact ih hnd.2 hmem

/-- Counterexample for C2 as stated: with symbols A and B each hit by both
the reversal and the volume-breakout detectors (hit count 2 each), A's
highest individual score 90 exceeds B's 60, yet the source's resonance
table keeps B before A: it sorts only by hit count (stable on the hit-map
insertion order) and never compares scores. -/
theorem c2_resonance_counterexample :
    computeResonance c2rev c2vol [] ≠ resonanceClaimed c2rev c2vol [] := by
  with_unfolding_all decide

/-- Claim C2 (amended): the resonance computation returns exactly the
symbols hit by at least 2 distinct detectors (given that each detector's
result list names each symbol at most once), sorted by hit count
descending with a stable sort; among equal hit counts the original
hit-map insertion order (first appearance across the reversal, then
volume-breakout, then shrink-breakout result lists) is preserved — there
is no secondary ordering by highest individual score. -/
theorem c2_resonance_amended (rev vol shr : List HitRec)
    (h1 : (rev.map (·.code)).Nodup) (h2 : (vol.map (·.code)).Nodup)
    (h3 : (shr.map (·.code)).Nodup) :
    (∀ c, c ∈ (computeResonance rev vol shr).map Prod.fst ↔
        2 ≤ hitInd rev c + hitInd vol c + hitInd shr c) ∧
    (computeResonance rev vol shr).Sorted hitLenGe := by
  constructor
  · intro c
    have hperm : (computeResonance rev vol shr).Perm (multiHit rev vol shr) :=
      List.perm_insertionSort _ _
    rw [List.Perm.mem_iff (hperm.map Prod.fst)]
    rw [List.mem_map]
    constructor
    · rintro ⟨e, he, rfl⟩
      have hf := List.mem_filter.mp he
      have hlen : 2 ≤ e.2.strategies.length := by simpa using hf.2
      have hk := nodup_keys_hitMap rev vol shr
      have hl : lookupInfo e.1 (hitMap rev vol shr) = some e.2 :=
        lookupInfo_of_mem e.1 e.2 _ hk (by rw [Prod.mk.eta]; exact hf.1)
      have hc : stratCount (hitMap rev vol shr) e.1 = e.2.strategies.length := by
        simp [stratCount, hl]
      rw [stratCount_hitMap rev vol shr e.1 h1 h2 h3] at hc
      omega
    · intro hge
      have hs : 2 ≤ stratCount (hitMap rev vol shr) c := by
        rw [stratCount_hitMap rev vol shr c h1 h2 h3]
        omega
      cases hl : lookupInfo c (hitMap rev vol shr) with
      | none => simp [stratCount, hl] at hs
      | some i =>
        have hmem := mem_of_lookupInfo c i _ hl
        refine ⟨(c, i), List.mem_filter.mpr ⟨hmem, ?_⟩, rfl⟩
        simp only [stratCount, hl] at hs
        simpa using hs
  · exact List.sorted_insertionSort _ _

/-- Witness for C2 (amended): the counterexample lists instantiate the
membership and sortedness conclusions. -/
theorem c2_resonance_amended_witness :
    ("A" ∈ (computeResonance c2rev c2vol []).map Prod.fst ↔
      2 ≤ hitInd c2rev "A" + hitInd c2vol "A" + hitInd ([] : List HitRec) "A") ∧
    (computeResonance c2rev c2vol []).Sorted hitLenGe :=
  ⟨(c2_resonance_amended c2rev c2vol [] (by with_unfolding_all decide)
      (by with_unfolding_all decide) (by with_unfolding_all decide)).1 "A",
   (c2_resonance_amended c2rev c2vol [] (by with_unfolding_all decide)
      (by with_unfolding_all decide) (by with_unfolding_all decide)).2⟩
